import Mathlib

/-!
Verification of the job lifecycle state machine of a beanstalkd-style
work-queue broker (package `architecture`, file `job.go`).

The embedding is shallow and purely functional:
* Go's `State` enum (READY = 0, DELAYED = 1, RESERVED = 2, BURIED = 3)
  becomes an inductive type.
* The `Job` struct becomes a Lean structure; Go `int64` fields become `Int`
  (no arithmetic here ever approaches the 64-bit boundary in the claims).
* `new(Job)` zero-initialises every field, so `NewJob` sets the timestamp
  fields `StartedDelayAt` and `StartedTTRAt` to `0` exactly as Go does.
* The mutating method `SetState` reads `time.Now().Unix()`; it is embedded
  as a function taking the current time `now : Int` explicitly and
  returning the pair (job after the call, error).  `(j, none)` models a
  `nil` error return with `j` the updated receiver; `(j, some msg)` models
  an `error` return, with the receiver left as the code leaves it.
* `Key` also reads the clock and is embedded with an explicit `now`.
* `State()` and `Id()` are pure accessors.
* `AwaitingClient` carries an id and a Go channel; the channel cannot be
  embedded, but `AwaitingClient.Key` reads no field at all, so the
  structure here keeps only the id.  `Key` and `Id` are embedded as the
  source writes them.
-/

namespace Beanstalkg

/-- `type State int` with the four iota constants of `job.go`. -/
inductive State where
  | READY
  | DELAYED
  | RESERVED
  | BURIED
deriving DecidableEq, Repr

/-- The `Job` struct of `job.go`.  Field order and names follow the source;
`id` and `state` are lower-case unexported fields in Go. -/
structure Job where
  id : String
  Pri : Int
  Delay : Int
  StartedDelayAt : Int
  StartedTTRAt : Int
  TTR : Int
  Bytes : Int
  Data : String
  state : State
deriving DecidableEq, Repr

/-- `NewJob(id string, pri, delay, ttr, bytes int64, data string) *Job`.
`new(Job)` zero-initialises the struct, so the two timestamp fields start
at `0`; the function then assigns the arguments and picks the initial
state from the sign of `Delay`. -/
def NewJob (id : String) (pri delay ttr bytes : Int) (data : String) : Job :=
  { id := id
    Pri := pri
    Delay := delay
    StartedDelayAt := 0
    StartedTTRAt := 0
    TTR := ttr
    Bytes := bytes
    Data := data
    state := if delay ≤ 0 then State.READY else State.DELAYED }

/-- `func (j *Job) SetState(state State) error`.  The switch of the source,
with `time.Now().Unix()` passed in as `now`.  The returned pair is
(receiver after the call, returned error).  The error strings are the
literal strings of the source (the `DELAYED` branch really says
"to RESERVED" in the code). -/
def Job.SetState (j : Job) (s : State) (now : Int) : Job × Option String :=
  match s with
  | State.READY =>
      if j.state = State.RESERVED ∨ j.state = State.DELAYED ∨ j.state = State.BURIED then
        ({ j with state := s }, none)
      else
        (j, some "Invalid state transition to READY")
  | State.DELAYED =>
      if j.state = State.RESERVED then
        ({ j with state := s, StartedDelayAt := now }, none)
      else
        (j, some "Invalid state transition to RESERVED")
  | State.RESERVED =>
      if j.state = State.READY then
        ({ j with state := s, StartedTTRAt := now }, none)
      else
        (j, some "Invalid state transition to RESERVED")
  | State.BURIED =>
      if j.state = State.RESERVED then
        ({ j with state := s }, none)
      else
        (j, some "Invalid state transition to BURIED")

/-- `func (j *Job) State() State`. -/
def Job.State (j : Job) : State :=
  j.state

/-- `func (j *Job) Key() int64`: the switch on `j.state`; the `BURIED`
case is absent in the source, so it falls through to the trailing
`return 0`. -/
def Job.Key (j : Job) (now : Int) : Int :=
  match j.state with
  | State.READY => j.Pri
  | State.DELAYED => j.Delay - (now - j.StartedDelayAt)
  | State.RESERVED => j.TTR - (now - j.StartedTTRAt)
  | State.BURIED => 0

/-- `func (j *Job) Id() string`. -/
def Job.Id (j : Job) : String :=
  j.id

/-- `AwaitingClient` of `job.go`.  The Go struct also holds
`SendChannel chan Job`, which has no functional content relevant to `Key`
or `Id` (neither method reads it), so only the id is kept. -/
structure AwaitingClient where
  id : String
deriving DecidableEq, Repr

/-- `func (w *AwaitingClient) Key() int64 \x7b return 0 \x7d`. -/
def AwaitingClient.Key (_ : AwaitingClient) : Int :=
  0

/-- `func (w *AwaitingClient) Id() string`. -/
def AwaitingClient.Id (w : AwaitingClient) : String :=
  w.id

/-- A concrete job used by the witnesses: `NewJob` with delay 0, hence READY. -/
def jReady : Job :=
  NewJob "job-1" 7 0 60 3 "abc"

/-- A concrete job in state RESERVED, used by the witnesses. -/
def jReserved : Job :=
  (jReady.SetState State.RESERVED 50).1

/-- A concrete job in state DELAYED: `NewJob` with delay 5. -/
def jDelayed : Job :=
  NewJob "job-2" 1 5 60 2 "xy"

/-- A concrete job in state BURIED, used by the witnesses. -/
def jBuried : Job :=
  (jReserved.SetState State.BURIED 70).1

/-- C1: `SetState(READY)` succeeds exactly from RESERVED, DELAYED or
BURIED, setting the state to READY; from READY itself it fails with the
invalid-transition error. -/
theorem C1_setState_ready (j : Job) (now : Int) :
    ((j.SetState State.READY now).2 = none ↔
      (j.state = State.RESERVED ∨ j.state = State.DELAYED ∨ j.state = State.BURIED)) ∧
    ((j.state = State.RESERVED ∨ j.state = State.DELAYED ∨ j.state = State.BURIED) →
      j.SetState State.READY now = ({ j with state := State.READY }, none)) ∧
    (j.state = State.READY →
      j.SetState State.READY now = (j, some "Invalid state transition to READY")) := by
  obtain ⟨id, pri, delay, sda, stta, ttr, bytes, data, st⟩ := j
  cases st <;> simp [Job.SetState]

/-- C1 witness: from BURIED the call succeeds and yields READY; a second
application shows the failure from READY. -/
theorem C1_setState_ready_witness :
    jBuried.SetState State.READY 90 = ({ jBuried with state := State.READY }, none) ∧
    jReady.SetState State.READY 90 = (jReady, some "Invalid state transition to READY") :=
  ⟨(C1_setState_ready jBuried 90).2.1 (Or.inr (Or.inr (by decide))),
   (C1_setState_ready jReady 90).2.2 (by decide)⟩

/-- C2: `SetState(RESERVED)` succeeds exactly from READY; on success it
sets the state to RESERVED and `StartedTTRAt` to the current time; from
any other source state it fails with an error. -/
theorem C2_setState_reserved (j : Job) (now : Int) :
    ((j.SetState State.RESERVED now).2 = none ↔ j.state = State.READY) ∧
    (j.state = State.READY →
      j.SetState State.RESERVED now =
        ({ j with state := State.RESERVED, StartedTTRAt := now }, none)) ∧
    (j.state ≠ State.READY → ((j.SetState State.RESERVED now).2).isSome = true) := by
  obtain ⟨id, pri, delay, sda, stta, ttr, bytes, data, st⟩ := j
  cases st <;> simp [Job.SetState]

/-- C2 witness: a READY job becomes RESERVED with `StartedTTRAt = 50`; a
DELAYED job makes the call fail. -/
theorem C2_setState_reserved_witness :
    jReady.SetState State.RESERVED 50 =
      ({ jReady with state := State.RESERVED, StartedTTRAt := 50 }, none) ∧
    ((jDelayed.SetState State.RESERVED 50).2).isSome = true :=
  ⟨(C2_setState_reserved jReady 50).2.1 (by decide),
   (C2_setState_reserved jDelayed 50).2.2 (by decide)⟩

/-- C3: `SetState(DELAYED)` succeeds exactly from RESERVED; on success it
sets the state to DELAYED and `StartedDelayAt` to the current time; from
any other source state it fails with an error. -/
theorem C3_setState_delayed (j : Job) (now : Int) :
    ((j.SetState State.DELAYED now).2 = none ↔ j.state = State.RESERVED) ∧
    (j.state = State.RESERVED →
      j.SetState State.DELAYED now =
        ({ j with state := State.DELAYED, StartedDelayAt := now }, none)) ∧
    (j.state ≠ State.RESERVED → ((j.SetState State.DELAYED now).2).isSome = true) := by
  obtain ⟨id, pri, delay, sda, stta, ttr, bytes, data, st⟩ := j
  cases st <;> simp [Job.SetState]

/-- C3 witness: a RESERVED job becomes DELAYED with `StartedDelayAt = 60`;
a READY job makes the call fail. -/
theorem C3_setState_delayed_witness :
    jReserved.SetState State.DELAYED 60 =
      ({ jReserved with state := State.DELAYED, StartedDelayAt := 60 }, none) ∧
    ((jReady.SetState State.DELAYED 60).2).isSome = true :=
  ⟨(C3_setState_delayed jReserved 60).2.1 (by decide),
   (C3_setState_delayed jReady 60).2.2 (by decide)⟩

/-- C4: `SetState(BURIED)` succeeds exactly from RESERVED and fails from
any other source state; in particular DELAYED → BURIED fails and
BURIED → RESERVED fails. -/
theorem C4_setState_buried (j : Job) (now : Int) :
    ((j.SetState State.BURIED now).2 = none ↔ j.state = State.RESERVED) ∧
    (j.state = State.RESERVED →
      j.SetState State.BURIED now = ({ j with state := State.BURIED }, none)) ∧
    (j.state ≠ State.RESERVED → ((j.SetState State.BURIED now).2).isSome = true) ∧
    (j.state = State.DELAYED → ((j.SetState State.BURIED now).2).isSome = true) ∧
    (j.state = State.BURIED → ((j.SetState State.RESERVED now).2).isSome = true) := by
  obtain ⟨id, pri, delay, sda, stta, ttr, bytes, data, st⟩ := j
  cases st <;> simp [Job.SetState]

/-- C4 witness: burying a RESERVED job succeeds; burying a DELAYED job and
reserving a BURIED job both fail. -/
theorem C4_setState_buried_witness :
    jReserved.SetState State.BURIED 70 = ({ jReserved with state := State.BURIED }, none) ∧
    ((jDelayed.SetState State.BURIED 70).2).isSome = true ∧
    ((jBuried.SetState State.RESERVED 70).2).isSome = true :=
  ⟨(C4_setState_buried jReserved 70).2.1 (by decide),
   (C4_setState_buried jDelayed 70).2.2.2.1 (by decide),
   (C4_setState_buried jBuried 70).2.2.2.2 (by decide)⟩

/-- C5: whenever `SetState` returns an error, the job — in particular its
state field — is left unchanged by the call. -/
theorem C5_error_preserves_state (j : Job) (s : State) (now : Int)
    (h : ((j.SetState s now).2).isSome = true) :
    (j.SetState s now).1 = j := by
  obtain ⟨id, pri, delay, sda, stta, ttr, bytes, data, st⟩ := j
  cases s <;> cases st <;> simp_all [Job.SetState]

/-- C5 witness: the failed attempt to reserve a BURIED job leaves the job
unchanged. -/
theorem C5_error_preserves_state_witness :
    ((jBuried.SetState State.RESERVED 80).2).isSome = true ∧
    (jBuried.SetState State.RESERVED 80).1 = jBuried :=
  ⟨by decide, C5_error_preserves_state jBuried State.RESERVED 80 (by decide)⟩

/-- C6: a job created by `NewJob` starts in READY when the supplied delay
is ≤ 0, and in DELAYED when the delay is > 0. -/
theorem C6_newJob_initial_state (id : String) (pri delay ttr bytes : Int) (data : String) :
    (delay ≤ 0 → (NewJob id pri delay ttr bytes data).state = State.READY) ∧
    (0 < delay → (NewJob id pri delay ttr bytes data).state = State.DELAYED) := by
  refine ⟨fun h => ?_, fun h => ?_⟩ <;> simp [NewJob, h]

/-- C6 witness: delay 0 gives READY, delay 5 gives DELAYED. -/
theorem C6_newJob_initial_state_witness :
    (NewJob "job-1" 7 0 60 3 "abc").state = State.READY ∧
    (NewJob "job-2" 1 5 60 2 "xy").state = State.DELAYED :=
  ⟨(C6_newJob_initial_state "job-1" 7 0 60 3 "abc").1 (by decide),
   (C6_newJob_initial_state "job-2" 1 5 60 2 "xy").2 (by decide)⟩

/-- C7 counterexample: the claim says every path into DELAYED — including
creation with delay > 0 — sets `StartedDelayAt` to the time of that entry.
`NewJob "job-2" 1 5 60 2 "xy"` enters DELAYED, yet no choice of entry time
makes its `StartedDelayAt` equal to that time: the constructor never reads
the clock and leaves the field at the zero value `0`, so at entry time 100
the field is `0 ≠ 100`, and indeed it cannot equal both 0 and 1. -/
theorem C7_creation_no_timestamp :
    ¬ ∀ (now : Int), (NewJob "job-2" 1 5 60 2 "xy").state = State.DELAYED →
        (NewJob "job-2" 1 5 60 2 "xy").StartedDelayAt = now := by
  intro h
  exact absurd ((h 0 (by decide)).symm.trans (h 1 (by decide))) (by decide)

/-- C7 amended: every entry into DELAYED via `SetState` sets
`StartedDelayAt` to the current time, and every entry into RESERVED via
`SetState` sets `StartedTTRAt` to the current time; but a job created by
`NewJob` with delay > 0 enters DELAYED with `StartedDelayAt` left at the
zero value 0, not at the creation time. -/
theorem C7_timestamps_on_entry :
    (∀ (j : Job) (now : Int), ((j.SetState State.DELAYED now).2) = none →
        (j.SetState State.DELAYED now).1.StartedDelayAt = now) ∧
    (∀ (j : Job) (now : Int), ((j.SetState State.RESERVED now).2) = none →
        (j.SetState State.RESERVED now).1.StartedTTRAt = now) ∧
    (∀ (id : String) (pri delay ttr bytes : Int) (data : String), 0 < delay →
        (NewJob id pri delay ttr bytes data).state = State.DELAYED ∧
        (NewJob id pri delay ttr bytes data).StartedDelayAt = 0) := by
  refine ⟨fun j now h => ?_, fun j now h => ?_, fun id pri delay ttr bytes data h => ?_⟩
  · obtain ⟨id, pri, delay, sda, stta, ttr, bytes, data, st⟩ := j
    cases st <;> simp_all [Job.SetState]
  · obtain ⟨id, pri, delay, sda, stta, ttr, bytes, data, st⟩ := j
    cases st <;> simp_all [Job.SetState]
  · simp [NewJob, h]

/-- C7 witness: releasing the reserved job into DELAYED at time 60 stamps
`StartedDelayAt = 60`; reserving the ready job at time 50 stamps
`StartedTTRAt = 50`; and a creation with delay 5 > 0 starts DELAYED with
`StartedDelayAt = 0`. -/
theorem C7_timestamps_on_entry_witness :
    (jReserved.SetState State.DELAYED 60).1.StartedDelayAt = 60 ∧
    (jReady.SetState State.RESERVED 50).1.StartedTTRAt = 50 ∧
    (NewJob "job-2" 1 5 60 2 "xy").state = State.DELAYED ∧
    (NewJob "job-2" 1 5 60 2 "xy").StartedDelayAt = 0 :=
  ⟨C7_timestamps_on_entry.1 jReserved 60 (by decide),
   C7_timestamps_on_entry.2.1 jReady 50 (by decide),
   C7_timestamps_on_entry.2.2 "job-2" 1 5 60 2 "xy" (by decide)⟩

/-- C8: `Key` returns the static priority in READY, the remaining delay
`Delay − (now − StartedDelayAt)` in DELAYED, and the remaining time-to-run
`TTR − (now − StartedTTRAt)` in RESERVED. -/
theorem C8_key_by_state (j : Job) (now : Int) :
    (j.state = State.READY → j.Key now = j.Pri) ∧
    (j.state = State.DELAYED → j.Key now = j.Delay - (now - j.StartedDelayAt)) ∧
    (j.state = State.RESERVED → j.Key now = j.TTR - (now - j.StartedTTRAt)) := by
  obtain ⟨id, pri, delay, sda, stta, ttr, bytes, data, st⟩ := j
  cases st <;> simp [Job.Key]

/-- C8 witness: the ready job keys by priority 7; the delayed job at time
3 keys at 5 − (3 − 0) = 2; the reserved job (reserved at 50, TTR 60) keys
at time 80 as 60 − (80 − 50) = 30. -/
theorem C8_key_by_state_witness :
    jReady.Key 10 = 7 ∧ jDelayed.Key 3 = 2 ∧ jReserved.Key 80 = 30 :=
  ⟨(C8_key_by_state jReady 10).1 (by decide),
   by have h := (C8_key_by_state jDelayed 3).2.1 (by decide); simpa [jDelayed, NewJob] using h,
   by have h := (C8_key_by_state jReserved 80).2.2 (by decide); simpa using h⟩

/-- C9: for a job in state BURIED, `Key` falls through the switch and
returns the constant 0; and `AwaitingClient.Key` returns 0 for every
handle. -/
theorem C9_key_zero (j : Job) (a : AwaitingClient) (now : Int) :
    (j.state = State.BURIED → j.Key now = 0) ∧ a.Key = 0 := by
  obtain ⟨id, pri, delay, sda, stta, ttr, bytes, data, st⟩ := j
  cases st <;> simp [Job.Key, AwaitingClient.Key]

/-- C9 witness: the buried job keys at 0, as does a concrete handle. -/
theorem C9_key_zero_witness :
    jBuried.Key 99 = 0 ∧ (AwaitingClient.mk "client-1").Key = 0 :=
  ⟨(C9_key_zero jBuried (AwaitingClient.mk "client-1") 99).1 (by decide),
   (C9_key_zero jBuried (AwaitingClient.mk "client-1") 99).2⟩

/-- C10: `SetState` never modifies `id`, `Pri`, `Delay`, `TTR`, `Bytes` or
`Data`, for any target state and whether it succeeds or fails; besides the
state field, a call changes at most the one timestamp belonging to the
entered state: `StartedDelayAt` only when the target is DELAYED (then
`StartedTTRAt` is untouched), `StartedTTRAt` only when the target is
RESERVED (then `StartedDelayAt` is untouched), and neither for targets
READY and BURIED.  `Key`, `State` and `Id` are embedded as pure functions
on the job — as in the source they only read fields — so they modify
nothing by construction; the equations here record that they return values
computed from the fields alone. -/
theorem C10_setState_frame (j : Job) (s : State) (now : Int) :
    ((j.SetState s now).1.id = j.id ∧ (j.SetState s now).1.Pri = j.Pri ∧
      (j.SetState s now).1.Delay = j.Delay ∧ (j.SetState s now).1.TTR = j.TTR ∧
      (j.SetState s now).1.Bytes = j.Bytes ∧ (j.SetState s now).1.Data = j.Data) ∧
    (s ≠ State.DELAYED → (j.SetState s now).1.StartedDelayAt = j.StartedDelayAt) ∧
    (s ≠ State.RESERVED → (j.SetState s now).1.StartedTTRAt = j.StartedTTRAt) ∧
    (s = State.DELAYED → (j.SetState s now).1.StartedTTRAt = j.StartedTTRAt) ∧
    (s = State.RESERVED → (j.SetState s now).1.StartedDelayAt = j.StartedDelayAt) ∧
    (j.State = j.state ∧ j.Id = j.id) := by
  obtain ⟨id, pri, delay, sda, stta, ttr, bytes, data, st⟩ := j
  cases s <;> cases st <;> simp [Job.SetState, Job.State, Job.Id]

/-- C10 witness: burying the reserved job keeps every non-state field,
including both timestamps. -/
theorem C10_setState_frame_witness :
    (jReserved.SetState State.BURIED 70).1.id = jReserved.id ∧
    (jReserved.SetState State.BURIED 70).1.Pri = jReserved.Pri ∧
    (jReserved.SetState State.BURIED 70).1.StartedDelayAt = jReserved.StartedDelayAt ∧
    (jReserved.SetState State.BURIED 70).1.StartedTTRAt = jReserved.StartedTTRAt :=
  ⟨(C10_setState_frame jReserved State.BURIED 70).1.1,
   (C10_setState_frame jReserved State.BURIED 70).1.2.1,
   (C10_setState_frame jReserved State.BURIED 70).2.1 (by decide),
   (C10_setState_frame jReserved State.BURIED 70).2.2.1 (by decide)⟩

end Beanstalkg
